import Mathlib

/-!
Shallow embedding of the core of `scalp_trainer.py` (tdawg5587/tradesim1):
the procedural candlestick generator (`CandlestickGenerator`) and the
trade-reaction state machine (`TradeScalpTrainer`).

Prices, times and random draws are modelled as exact rationals (the Python
source uses binary floats; every verified property below is ordering- or
record-update-based, hence independent of the numeric representation except
where rounding is modelled explicitly).  Random draws are threaded as
explicit parameters, so every theorem quantifying over the draw bundle holds
for all random seeds.  Python truthiness tests on floats and on `None` are
modelled faithfully: a float is falsy exactly when it equals 0, `None` is
falsy, a list is falsy exactly when it is empty.
-/

namespace ScalpTrainer

/-- Exit tags accepted by `TradeScalpTrainer.exit_trade` (hotkeys J/K/L). -/
inductive ExitTag where
  | profit
  | loss
  | breakeven
deriving DecidableEq, Repr

/-- Entry tags accepted by `TradeScalpTrainer.enter_trade` (hotkeys A/S/D).
The source uses the tag only in log output; it never affects pricing. -/
inductive TradeKind where
  | long
  | short
  | breakout
deriving DecidableEq, Repr

/-- Level kind of a `SupportResistanceLevel` (field `type` in the source). -/
inductive LevelKind where
  | support
  | resistance
deriving DecidableEq, Repr

/-- `SupportResistanceLevel.__init__`: price, type, strength, touches,
created_time, active. -/
structure SRLevel where
  price : ℚ
  type : LevelKind
  strength : ℕ
  touches : ℕ
  createdTime : ℚ
  active : Bool
deriving DecidableEq, Repr

/-- One candle as produced by `CandlestickGenerator.generate_candle`
(the dict with keys open/high/low/close/timestamp/volume). -/
structure Candle where
  «open» : ℚ
  high : ℚ
  low : ℚ
  close : ℚ
  timestamp : ℚ
  volume : ℤ
deriving DecidableEq, Repr

/-- Python `max` over a list (never called on `[]` in the modelled code;
the `[]` case is an unreachable default). -/
def pyMax {α : Type} [LinearOrder α] [Inhabited α] : List α → α
  | [] => default
  | x :: xs => xs.foldl max x

/-- Python `min` over a list (never called on `[]` in the modelled code). -/
def pyMin {α : Type} [LinearOrder α] [Inhabited α] : List α → α
  | [] => default
  | x :: xs => xs.foldl min x

/-- Python truthiness of an optional float: `None` and `0.0` are falsy. -/
def optTruthy : Option ℚ → Bool
  | none => false
  | some x => x != 0

/-- Round a rational to the nearest integer, ties to even: the tie rule of
Python 3's builtin `round`. -/
def roundHalfEven (q : ℚ) : ℤ :=
  if q - ⌊q⌋ < 1/2 then ⌊q⌋
  else if 1/2 < q - ⌊q⌋ then ⌊q⌋ + 1
  else if ⌊q⌋ % 2 = 0 then ⌊q⌋ else ⌊q⌋ + 1

/-- Python `round(x, 2)`: round to 2 decimal places, ties to even. -/
def round2 (q : ℚ) : ℚ := (roundHalfEven (q * 100) : ℚ) / 100

theorem floor_le_roundHalfEven (q : ℚ) : ⌊q⌋ ≤ roundHalfEven q := by
  unfold roundHalfEven
  split_ifs <;> omega

theorem roundHalfEven_le_floor_add_one (q : ℚ) : roundHalfEven q ≤ ⌊q⌋ + 1 := by
  unfold roundHalfEven
  split_ifs <;> omega

theorem roundHalfEven_mono {a b : ℚ} (h : a ≤ b) :
    roundHalfEven a ≤ roundHalfEven b := by
  have hf : ⌊a⌋ ≤ ⌊b⌋ := Int.floor_le_floor h
  rcases eq_or_lt_of_le hf with heq | hlt
  · unfold roundHalfEven
    rw [← heq]
    split_ifs <;> first | omega | (exfalso; linarith)
  · calc roundHalfEven a ≤ ⌊a⌋ + 1 := roundHalfEven_le_floor_add_one a
      _ ≤ ⌊b⌋ := hlt
      _ ≤ roundHalfEven b := floor_le_roundHalfEven b

theorem round2_mono {a b : ℚ} (h : a ≤ b) : round2 a ≤ round2 b := by
  unfold round2
  have h100 : a * 100 ≤ b * 100 := by linarith
  have := roundHalfEven_mono h100
  have hc : ((roundHalfEven (a * 100) : ℚ)) ≤ ((roundHalfEven (b * 100) : ℚ)) := by
    exact_mod_cast this
  linarith

/-- Mutable state of `CandlestickGenerator` (the fields read or written by
`generate_candle` and `update_sr_levels`). -/
structure GenState where
  currentPrice : ℚ
  trend : ℤ
  trendStrength : ℚ
  volatility : ℚ
  baseVolume : ℚ
  srLevels : List SRLevel
  priceRangeHistory : List ℚ
deriving DecidableEq, Repr

/-- `CandlestickGenerator.update_sr_levels`, with `time.time()` passed as
`now` and the random draws passed explicitly: `rDraw` is the
`random.random()` gate, `priceDraw` the `random.uniform(min, max)` price of a
potential new level, `strengthDraw` the `random.randint(2, 4)` strength.
Keeps levels that are active and younger than the 300-time-unit lifetime;
with probability 10 percent, if fewer than 8 levels remain and the recorded
price range is positive, appends a fresh level and re-sorts by price. -/
def updateSrLevels (levels : List SRLevel) (hist : List ℚ)
    (currentPrice now rDraw priceDraw : ℚ) (strengthDraw : ℕ) : List SRLevel :=
  let kept := levels.filter fun level =>
    level.active && decide (now - level.createdTime < 300)
  if rDraw < 1/10 ∧ kept.length < 8 then
    let priceRange := pyMax hist - pyMin hist
    if priceRange > 0 then
      let levelPrice := priceDraw
      let levelType : LevelKind :=
        if levelPrice < currentPrice then .support else .resistance
      let newLevel : SRLevel :=
        { price := levelPrice, type := levelType, strength := strengthDraw,
          touches := 0, createdTime := now, active := true }
      (kept ++ [newLevel]).mergeSort fun a b => a.price ≤ b.price
    else kept
  else kept

/-- `CandlestickGenerator.calculate_sr_influence`, as a fold over the level
list, returning `(price_influence, volume_multiplier)`.  The source also
bumps `level.touches` for very close touches; that counter feeds back into
no computed value and is not modelled. -/
def calcSrInfluence (levels : List SRLevel) (currentPrice targetPrice : ℚ) :
    ℚ × ℚ :=
  let acc := levels.foldl
    (fun (acc : ℚ × ℚ) level =>
      if level.active then
        let distance := |targetPrice - level.price|
        let maxInfluenceDistance := currentPrice * (2/100)
        if distance < maxInfluenceDistance then
          let influenceStrength :=
            (1 - distance / maxInfluenceDistance) * level.strength * (1/10)
          let priceInfluence :=
            if level.type = .resistance ∧ targetPrice > level.price then
              acc.1 - influenceStrength
            else if level.type = .support ∧ targetPrice < level.price then
              acc.1 + influenceStrength
            else acc.1
          (priceInfluence, acc.2 + influenceStrength * 2)
        else acc
      else acc)
    (0, 1)
  (acc.1, min acc.2 5)

/-- `CandlestickGenerator.generate_volume` on the (already rounded) candle
dict, with `avgRange` the generator's volatility at call time and
`u1`, `u2` the two `random.uniform` draws.  Python's `int()` truncation
equals the floor here because the value is at least 100. -/
def generateVolume (baseVolume avgRange : ℚ) (candle : Candle)
    (volumeMultiplier u1 u2 : ℚ) : ℤ :=
  let volume := baseVolume * u1
  let candleRange := candle.high - candle.low
  let volume :=
    if avgRange > 0 then
      volume * max (3/10) (1 + (candleRange / avgRange - 1) * (1/2))
    else volume
  let volume :=
    if |candle.close - candle.«open»| > avgRange * (1/2) then volume * (3/2)
    else volume
  let volume := volume * volumeMultiplier
  let volume := volume * u2
  ⌊max 100 volume⌋

/-- The bundle of random draws consumed by one `generate_candle` call,
in source order. -/
structure CandleDraws where
  rLevel : ℚ
  levelPrice : ℚ
  levelStrength : ℕ
  uBase : ℚ
  uRand : ℚ
  uHigh : ℚ
  uLow : ℚ
  rTrend : ℚ
  uTrendStrength : ℚ
  uVolatility : ℚ
  uVol1 : ℚ
  uVol2 : ℚ
deriving DecidableEq, Repr

/-- `CandlestickGenerator.generate_candle`, as a function of the generator
state, the clock value `now` (both `time.time()` and the candle timestamp)
and the random draws.  Returns the candle dict; the trailing state update
(current price, price history, candle log) feeds no verified property and is
not modelled.  The possible trend flip happens before volume generation, so
the redrawn volatility is what `generate_volume` sees. -/
def generateCandle (g : GenState) (now : ℚ) (d : CandleDraws) : Candle :=
  let levels := updateSrLevels g.srLevels g.priceRangeHistory g.currentPrice
    now d.rLevel d.levelPrice d.levelStrength
  let baseMove := (g.trend : ℚ) * g.trendStrength * d.uBase
  let randomMove := d.uRand
  let openPrice := g.currentPrice
  let targetClose := openPrice + baseMove + randomMove
  let srClose := calcSrInfluence levels g.currentPrice targetClose
  let closePrice := targetClose + srClose.1
  let volumeMultiplier := srClose.2
  let baseHigh := max openPrice closePrice + d.uHigh
  let baseLow := min openPrice closePrice - d.uLow
  let highPrice := baseHigh + (calcSrInfluence levels g.currentPrice baseHigh).1
  let lowPrice := baseLow + (calcSrInfluence levels g.currentPrice baseLow).1
  let highPrice := max highPrice (max openPrice closePrice)
  let lowPrice := min lowPrice (min openPrice closePrice)
  let trendChangeProbability : ℚ :=
    if volumeMultiplier > 2 then (5/100) * (1/2) else 5/100
  let volatility :=
    if d.rTrend < trendChangeProbability then d.uVolatility else g.volatility
  let candleData : Candle :=
    { «open» := round2 openPrice, high := round2 highPrice,
      low := round2 lowPrice, close := round2 closePrice,
      timestamp := now, volume := 0 }
  let volume := generateVolume g.baseVolume volatility candleData
    volumeMultiplier d.uVol1 d.uVol2
  { candleData with volume := volume }

/-- Mutable session state of `TradeScalpTrainer` (the fields read or written
by the breakout check and the enter/cancel/exit commands). -/
structure SessionState where
  candlesDisplay : List Candle
  maxVolume : ℤ
  breakoutDetected : Bool
  breakoutTime : Option ℚ
  tradeEntered : Bool
  tradeEntryTime : Option ℚ
  tradeEntryPrice : Option ℚ
  reactionTimes : List ℚ
  totalBreakouts : ℕ
  totalTrades : ℕ
  successfulTrades : ℕ
  scoreWins : ℕ
  averageReactionTime : ℚ
  cumulativeScore : ℤ
  debugMode : Bool
  paused : Bool
deriving DecidableEq, Repr

/-- Close of `candles_display[-1]`, when the display list is nonempty. -/
def lastClose (s : SessionState) : Option ℚ :=
  s.candlesDisplay.getLast?.map Candle.close

/-- The candle-append part of `candle_generation_loop` (lines 313 to 319):
push the new candle, evict the oldest past the 50-candle display capacity,
and refresh the volume-scaling maximum. -/
def pushCandle (s : SessionState) (c : Candle) : SessionState :=
  let candles := s.candlesDisplay ++ [c]
  let candles := if candles.length > 50 then candles.tail else candles
  { s with candlesDisplay := candles,
           maxVolume := pyMax (candles.map Candle.volume) }

/-- `TradeScalpTrainer.check_for_breakout`, with `time.time()` passed as
`now`: if there are at least two candles and the newest high exceeds the
previous high and no breakout is already pending, mark the breakout, record
its detection time and bump the counter. -/
def checkForBreakout (s : SessionState) (now : ℚ) : SessionState :=
  match s.candlesDisplay.reverse with
  | currentCandle :: previousCandle :: _ =>
    if currentCandle.high > previousCandle.high then
      if s.breakoutDetected = false then
        { s with breakoutDetected := true, breakoutTime := some now,
                 totalBreakouts := s.totalBreakouts + 1 }
      else s
    else s
  | _ => s

/-- One loop iteration of candle processing as seen by the session:
append the candle, then run the breakout check. -/
def processCandle (s : SessionState) (c : Candle) (now : ℚ) : SessionState :=
  checkForBreakout (pushCandle s c) now

/-- `TradeScalpTrainer.enter_trade`, with `time.time()` passed as `now`.
Returns the new state and whether the entry was accepted (the source
reports acceptance or rejection via its log branch).  The only guard in the
source is "not already in a trade"; on acceptance the entry price becomes
the latest close (when the display list is nonempty) and, when the stored
breakout time is truthy and debug mode is off, the reaction time in
milliseconds is appended and the running mean recomputed.  Whether or not
the entry was accepted, the pending breakout flag and time are cleared at
the end. -/
def enterTrade (s : SessionState) (tradeKind : TradeKind) (now : ℚ) :
    SessionState × Bool :=
  let result :=
    if s.tradeEntered = false then
      let s := { s with tradeEntered := true, tradeEntryTime := some now }
      let s :=
        match s.candlesDisplay.getLast? with
        | some c => { s with tradeEntryPrice := some c.close }
        | none => s
      let s :=
        if optTruthy s.breakoutTime && !s.debugMode then
          let reactionTime := (now - s.breakoutTime.getD 0) * 1000
          let reactionTimes := s.reactionTimes ++ [reactionTime]
          { s with reactionTimes := reactionTimes,
                   averageReactionTime :=
                     reactionTimes.sum / (reactionTimes.length : ℚ) }
        else s
      (s, true)
    else (s, false)
  ({ result.1 with breakoutDetected := false, breakoutTime := none },
   result.2)

/-- `TradeScalpTrainer.cancel_trade`: clears the in-trade flag, the entry
price and the pending-breakout flag.  The source does not clear
`breakout_time`. -/
def cancelTrade (s : SessionState) : SessionState :=
  { s with tradeEntered := false, tradeEntryPrice := none,
           breakoutDetected := false }

/-- The guard of `TradeScalpTrainer.exit_trade`:
`self.trade_entered and self.trade_entry_price and self.candles_display`,
with Python float truthiness on the entry price. -/
def exitGuard (s : SessionState) : Bool :=
  s.tradeEntered && optTruthy s.tradeEntryPrice && !s.candlesDisplay.isEmpty

/-- `TradeScalpTrainer.exit_trade`: when the guard passes, bump the trade
counter, score the exit against the latest close relative to the entry
price (the profit tag additionally bumps the "profitable" counter
unconditionally), then leave the trade. -/
def exitTrade (s : SessionState) (exitType : ExitTag) : SessionState :=
  if exitGuard s then
    let entryPrice := s.tradeEntryPrice.getD 0
    let currentPrice := (lastClose s).getD 0
    let s := { s with totalTrades := s.totalTrades + 1 }
    let s :=
      match exitType with
      | .profit =>
        let s := { s with successfulTrades := s.successfulTrades + 1 }
        if currentPrice > entryPrice then
          { s with cumulativeScore := s.cumulativeScore + 1,
                   scoreWins := s.scoreWins + 1 }
        else if currentPrice < entryPrice then
          { s with cumulativeScore := s.cumulativeScore - 1 }
        else s
      | .loss =>
        if currentPrice < entryPrice then
          { s with cumulativeScore := s.cumulativeScore - 1 }
        else if currentPrice > entryPrice then
          { s with cumulativeScore := s.cumulativeScore + 1,
                   scoreWins := s.scoreWins + 1 }
        else s
      | .breakeven => s
    { s with tradeEntered := false, tradeEntryPrice := none }
  else s

theorem round2_max_le (x o c : ℚ) :
    max (round2 o) (round2 c) ≤ round2 (max x (max o c)) :=
  max_le (round2_mono ((le_max_left o c).trans (le_max_right x _)))
    (round2_mono ((le_max_right o c).trans (le_max_right x _)))

theorem round2_min_le (x o c : ℚ) :
    round2 (min x (min o c)) ≤ min (round2 o) (round2 c) :=
  le_min (round2_mono ((min_le_right x _).trans (min_le_left o c)))
    (round2_mono ((min_le_right x _).trans (min_le_right o c)))

/-- Claim C4: every candle returned by the generator's tick, after the final
rounding of OHLC to 2 decimal places, satisfies `high >= max(open, close)`
and `low <= min(open, close)`, for every generator state and every bundle of
random draws. -/
theorem generateCandle_ohlc_invariant (g : GenState) (now : ℚ)
    (d : CandleDraws) :
    (generateCandle g now d).high ≥
      max (generateCandle g now d).«open» (generateCandle g now d).close ∧
    (generateCandle g now d).low ≤
      min (generateCandle g now d).«open» (generateCandle g now d).close := by
  refine ⟨?_, ?_⟩ <;>
    simp only [generateCandle, ge_iff_le]
  · exact round2_max_le _ _ _
  · exact round2_min_le _ _ _

theorem mem_updateSrLevels_of_kept {l : SRLevel} {levels : List SRLevel}
    {hist : List ℚ} {currentPrice now rDraw priceDraw : ℚ}
    {strengthDraw : ℕ}
    (h : l ∈ levels.filter fun level =>
      level.active && decide (now - level.createdTime < 300)) :
    l ∈ updateSrLevels levels hist currentPrice now rDraw priceDraw
      strengthDraw := by
  unfold updateSrLevels
  dsimp only
  split_ifs <;>
    first
      | exact h
      | (rw [List.mem_mergeSort, List.mem_append]; exact Or.inl h)

theorem mem_updateSrLevels {l : SRLevel} {levels : List SRLevel}
    {hist : List ℚ} {currentPrice now rDraw priceDraw : ℚ}
    {strengthDraw : ℕ}
    (h : l ∈ updateSrLevels levels hist currentPrice now rDraw priceDraw
      strengthDraw) :
    l ∈ levels.filter (fun level =>
      level.active && decide (now - level.createdTime < 300)) ∨
    (l.createdTime = now ∧ l.active = true) := by
  unfold updateSrLevels at h
  dsimp only at h
  split_ifs at h <;>
    first
      | exact Or.inl h
      | (rw [List.mem_mergeSort, List.mem_append, List.mem_singleton] at h
         rcases h with h | h
         · exact Or.inl h
         · exact Or.inr (by rw [h]; exact ⟨rfl, rfl⟩))

/-- Claim C8: a level created at time T with the fixed 300-time-unit
lifetime survives the level-set maintenance run at T+299 and is dropped by
the run at T+301; maintenance also drops every inactive level, at any
time. -/
theorem updateSrLevels_aging (l : SRLevel) (levels : List SRLevel)
    (hist : List ℚ) (currentPrice T rDraw priceDraw : ℚ) (strengthDraw : ℕ)
    (hmem : l ∈ levels) (hact : l.active = true) (hT : l.createdTime = T) :
    l ∈ updateSrLevels levels hist currentPrice (T + 299) rDraw priceDraw
        strengthDraw ∧
    l ∉ updateSrLevels levels hist currentPrice (T + 301) rDraw priceDraw
        strengthDraw ∧
    ∀ l' ∈ levels, l'.active = false → ∀ now,
      l' ∉ updateSrLevels levels hist currentPrice now rDraw priceDraw
        strengthDraw := by
  refine ⟨?_, ?_, ?_⟩
  · apply mem_updateSrLevels_of_kept
    rw [List.mem_filter]
    refine ⟨hmem, ?_⟩
    simp only [hact, hT, Bool.true_and, decide_eq_true_eq]
    linarith
  · intro habs
    rcases mem_updateSrLevels habs with hk | ⟨hnew, -⟩
    · rw [List.mem_filter] at hk
      rcases hk with ⟨-, hp⟩
      simp only [hact, hT, Bool.true_and, decide_eq_true_eq] at hp
      linarith
    · rw [hT] at hnew
      linarith
  · intro l' hl' hinact now habs
    rcases mem_updateSrLevels habs with hk | ⟨-, hactive⟩
    · rw [List.mem_filter] at hk
      rcases hk with ⟨-, hp⟩
      simp [hinact] at hp
    · rw [hinact] at hactive
      exact Bool.false_ne_true hactive

/-- Concrete level for the C8 witness: active, created at time 0. -/
def lvlC8 : SRLevel :=
  { price := 100, type := .support, strength := 3, touches := 0,
    createdTime := 0, active := true }

theorem updateSrLevels_aging_witness :
    lvlC8 ∈ [lvlC8] ∧ lvlC8.active = true ∧ lvlC8.createdTime = 0 ∧
    (lvlC8 ∈ updateSrLevels [lvlC8] [100] 100 (0 + 299) 1 0 2 ∧
     lvlC8 ∉ updateSrLevels [lvlC8] [100] 100 (0 + 301) 1 0 2 ∧
     ∀ l' ∈ [lvlC8], l'.active = false → ∀ now,
       l' ∉ updateSrLevels [lvlC8] [100] 100 now 1 0 2) :=
  ⟨List.mem_singleton.mpr rfl, rfl, rfl,
   updateSrLevels_aging lvlC8 [lvlC8] [100] 100 0 1 0 2
     (List.mem_singleton.mpr rfl) rfl rfl⟩

theorem checkForBreakout_of_detected (s : SessionState) (now : ℚ)
    (h : s.breakoutDetected = true) : checkForBreakout s now = s := by
  unfold checkForBreakout
  split <;> try rfl
  split_ifs <;> simp_all

theorem enterTrade_rejected_eq (s : SessionState) (k : TradeKind) (now : ℚ)
    (h : s.tradeEntered = true) :
    enterTrade s k now =
      ({ s with breakoutDetected := false, breakoutTime := none }, false) := by
  simp [enterTrade, h]

theorem clearBreakout_eq_self (s : SessionState)
    (h1 : s.breakoutDetected = false) (h2 : s.breakoutTime = none) :
    ({ s with breakoutDetected := false, breakoutTime := none } :
      SessionState) = s := by
  cases s
  simp_all

theorem enterTrade_accepted_fields (s : SessionState) (k : TradeKind)
    (now : ℚ) (h : s.tradeEntered = false) :
    (enterTrade s k now).1.tradeEntered = true ∧
    (enterTrade s k now).2 = true ∧
    (enterTrade s k now).1.breakoutDetected = false ∧
    (enterTrade s k now).1.breakoutTime = none := by
  unfold enterTrade
  rw [if_pos h]
  dsimp only
  refine ⟨?_, rfl, rfl, rfl⟩
  split <;> split <;> rfl

/-- Claim C5: starting from any state not in a trade, two consecutive
`enter` calls (nothing in between) succeed only on the first call; the
second returns a rejection and leaves the whole session state exactly as
the first call left it. -/
theorem enterTrade_twice_second_rejected (s : SessionState)
    (k1 k2 : TradeKind) (t1 t2 : ℚ) (h : s.tradeEntered = false) :
    (enterTrade s k1 t1).2 = true ∧
    (enterTrade (enterTrade s k1 t1).1 k2 t2).2 = false ∧
    (enterTrade (enterTrade s k1 t1).1 k2 t2).1 = (enterTrade s k1 t1).1 := by
  obtain ⟨hE1, hE2, hE3, hE4⟩ := enterTrade_accepted_fields s k1 t1 h
  have hrej := enterTrade_rejected_eq (enterTrade s k1 t1).1 k2 t2 hE1
  refine ⟨hE2, ?_, ?_⟩
  · rw [hrej]
  · rw [hrej]
    exact clearBreakout_eq_self _ hE3 hE4

/-- Concrete idle session for the C5 witness. -/
def sC5 : SessionState :=
  { candlesDisplay := [], maxVolume := 0, breakoutDetected := false,
    breakoutTime := none, tradeEntered := false, tradeEntryTime := none,
    tradeEntryPrice := none, reactionTimes := [], totalBreakouts := 0,
    totalTrades := 0, successfulTrades := 0, scoreWins := 0,
    averageReactionTime := 0, cumulativeScore := 0, debugMode := true,
    paused := false }

theorem enterTrade_twice_second_rejected_witness :
    sC5.tradeEntered = false ∧
    ((enterTrade sC5 TradeKind.long 1).2 = true ∧
     (enterTrade (enterTrade sC5 TradeKind.long 1).1 TradeKind.short 2).2 =
       false ∧
     (enterTrade (enterTrade sC5 TradeKind.long 1).1 TradeKind.short 2).1 =
       (enterTrade sC5 TradeKind.long 1).1) :=
  ⟨rfl, enterTrade_twice_second_rejected sC5 TradeKind.long TradeKind.short
    1 2 rfl⟩

/-- Claim C6: while a breakout is already pending, processing a further
candle (whatever its high) never bumps the breakout counter nor changes the
recorded detection time, and the breakout stays pending; pendingness is a
single flag, so at most one breakout is pending at a time. -/
theorem pending_breakout_no_recount (s : SessionState) (c : Candle)
    (now : ℚ) (h : s.breakoutDetected = true) :
    (processCandle s c now).totalBreakouts = s.totalBreakouts ∧
    (processCandle s c now).breakoutTime = s.breakoutTime ∧
    (processCandle s c now).breakoutDetected = true := by
  have hp : (pushCandle s c).breakoutDetected = true := h
  unfold processCandle
  rw [checkForBreakout_of_detected _ _ hp]
  exact ⟨rfl, rfl, hp⟩

/-- Concrete pending-breakout session and qualifying candle for the C6
witness (the pushed candle's high, 3, exceeds the previous high, 2). -/
def cPrevC6 : Candle :=
  { «open» := 1, high := 2, low := 1, close := 2, timestamp := 0,
    volume := 100 }

def sC6 : SessionState :=
  { candlesDisplay := [cPrevC6],
    maxVolume := 100, breakoutDetected := true, breakoutTime := some 7,
    tradeEntered := false, tradeEntryTime := none, tradeEntryPrice := none,
    reactionTimes := [], totalBreakouts := 1, totalTrades := 0,
    successfulTrades := 0, scoreWins := 0, averageReactionTime := 0,
    cumulativeScore := 0, debugMode := false, paused := false }

def cC6 : Candle :=
  { «open» := 2, high := 3, low := 2, close := 3, timestamp := 1,
    volume := 100 }

theorem pending_breakout_no_recount_witness :
    sC6.breakoutDetected = true ∧
    ((processCandle sC6 cC6 9).totalBreakouts = sC6.totalBreakouts ∧
     (processCandle sC6 cC6 9).breakoutTime = sC6.breakoutTime ∧
     (processCandle sC6 cC6 9).breakoutDetected = true) :=
  ⟨rfl, pending_breakout_no_recount sC6 cC6 9 rfl⟩

/-- Claim C7 (amended): `cancel` clears the in-trade flag, the entry price
and the pending-breakout flag, but leaves the recorded breakout detection
timestamp in place; every counter and the reaction-time series are
untouched. -/
theorem cancelTrade_effects (s : SessionState) :
    (cancelTrade s).tradeEntered = false ∧
    (cancelTrade s).tradeEntryPrice = none ∧
    (cancelTrade s).breakoutDetected = false ∧
    (cancelTrade s).breakoutTime = s.breakoutTime ∧
    (cancelTrade s).totalBreakouts = s.totalBreakouts ∧
    (cancelTrade s).totalTrades = s.totalTrades ∧
    (cancelTrade s).successfulTrades = s.successfulTrades ∧
    (cancelTrade s).scoreWins = s.scoreWins ∧
    (cancelTrade s).cumulativeScore = s.cumulativeScore ∧
    (cancelTrade s).reactionTimes = s.reactionTimes :=
  ⟨rfl, rfl, rfl, rfl, rfl, rfl, rfl, rfl, rfl, rfl⟩

/-- Concrete session with a pending breakout detected at time 5, for the C7
counterexample. -/
def sC7 : SessionState :=
  { candlesDisplay := [], maxVolume := 0, breakoutDetected := true,
    breakoutTime := some 5, tradeEntered := false, tradeEntryTime := none,
    tradeEntryPrice := none, reactionTimes := [], totalBreakouts := 1,
    totalTrades := 0, successfulTrades := 0, scoreWins := 0,
    averageReactionTime := 0, cumulativeScore := 0, debugMode := false,
    paused := false }

/-- C7 counterexample: contrary to the claim, `cancel` does not reset the
stored detection timestamp to `none`; it survives the cancel. -/
theorem cancelTrade_keeps_breakoutTime :
    sC7.breakoutTime = some 5 ∧
    (cancelTrade sC7).breakoutTime = some 5 ∧
    (cancelTrade sC7).breakoutTime ≠ none :=
  ⟨rfl, rfl, fun hcon => Option.some_ne_none 5 hcon⟩

/-- Concrete normal-mode idle session with no pending breakout, for C1. -/
def cC1 : Candle :=
  { «open» := 100, high := 101, low := 99, close := 201/2, timestamp := 0,
    volume := 1000 }

def sC1 : SessionState :=
  { candlesDisplay := [cC1],
    maxVolume := 1000, breakoutDetected := false, breakoutTime := none,
    tradeEntered := false, tradeEntryTime := none, tradeEntryPrice := none,
    reactionTimes := [], totalBreakouts := 0, totalTrades := 0,
    successfulTrades := 0, scoreWins := 0, averageReactionTime := 0,
    cumulativeScore := 0, debugMode := false, paused := false }

/-- Claim C1 exhibit: in normal mode (debug off) with no pending breakout
and no open trade, the source still accepts the entry and transitions to
the in-trade state — `enter_trade` never consults `debug_mode` or the
breakout state for its guard, contradicting the documented
breakouts-only gating of normal mode. -/
theorem enterTrade_accepts_without_breakout :
    sC1.debugMode = false ∧ sC1.breakoutDetected = false ∧
    sC1.breakoutTime = none ∧ sC1.tradeEntered = false ∧
    (enterTrade sC1 TradeKind.long 10).2 = true ∧
    (enterTrade sC1 TradeKind.long 10).1.tradeEntered = true ∧
    (enterTrade sC1 TradeKind.long 10).1.tradeEntryPrice = some (201/2) :=
  ⟨rfl, rfl, rfl, rfl, rfl, rfl, rfl⟩


theorem exitGuard_of_inTrade (s : SessionState) (P Pe : ℚ)
    (h1 : s.tradeEntered = true) (h2 : s.tradeEntryPrice = some P)
    (h3 : P ≠ 0) (h4 : lastClose s = some Pe) : exitGuard s = true := by
  unfold exitGuard optTruthy
  rw [h1, h2]
  have hne : s.candlesDisplay ≠ [] := by
    intro hnil
    rw [lastClose, hnil] at h4
    simp at h4
  simp [h3, hne]

/-- Claim C2 (amended): for a session in a trade entered at a nonzero price
P, exiting while the latest close is P2 moves the score by +1 when P2 > P
(also bumping the wins counter), by -1 when P2 < P and by 0 when they are
equal, identically for the profit and loss tags; the breakeven tag always
leaves the score (and wins) unchanged.  The nonzero-entry side condition is
forced by the source's truthiness guard: a trade entered at price exactly 0
makes `exit_trade` a silent no-op. -/
theorem exitTrade_score_sign_law (s : SessionState) (P Pe : ℚ) (r : ExitTag)
    (h1 : s.tradeEntered = true) (h2 : s.tradeEntryPrice = some P)
    (h3 : P ≠ 0) (h4 : lastClose s = some Pe) :
    (exitTrade s r).cumulativeScore = s.cumulativeScore +
      (if r = ExitTag.breakeven then 0
       else if P < Pe then 1 else if Pe < P then -1 else 0) ∧
    (exitTrade s r).scoreWins = s.scoreWins +
      (if r = ExitTag.breakeven then 0 else if P < Pe then 1 else 0) := by
  have hguard : exitGuard s = true := exitGuard_of_inTrade s P Pe h1 h2 h3 h4
  unfold exitTrade
  rw [hguard]
  dsimp only
  rw [h2, h4]
  dsimp only [Option.getD]
  cases r <;>
    rcases lt_trichotomy P Pe with hc | hc | hc <;>
      first
        | (subst hc; simp [lt_irrefl])
        | simp [hc, lt_asymm hc, gt_iff_lt, sub_eq_add_neg]

/-- Concrete in-trade session (entry 10, latest close 12) for the C2
witness. -/
def cC2w : Candle :=
  { «open» := 11, high := 12, low := 10, close := 12, timestamp := 0,
    volume := 100 }

def sC2w : SessionState :=
  { candlesDisplay := [cC2w],
    maxVolume := 100, breakoutDetected := false, breakoutTime := none,
    tradeEntered := true, tradeEntryTime := some 1,
    tradeEntryPrice := some 10, reactionTimes := [], totalBreakouts := 0,
    totalTrades := 0, successfulTrades := 0, scoreWins := 0,
    averageReactionTime := 0, cumulativeScore := 0, debugMode := true,
    paused := false }

theorem exitTrade_score_sign_law_witness :
    sC2w.tradeEntered = true ∧ sC2w.tradeEntryPrice = some 10 ∧
    (10 : ℚ) ≠ 0 ∧ lastClose sC2w = some 12 ∧
    ((exitTrade sC2w ExitTag.profit).cumulativeScore =
       sC2w.cumulativeScore +
       (if ExitTag.profit = ExitTag.breakeven then 0
        else if (10 : ℚ) < 12 then 1 else if (12 : ℚ) < 10 then -1
        else 0) ∧
     (exitTrade sC2w ExitTag.profit).scoreWins = sC2w.scoreWins +
       (if ExitTag.profit = ExitTag.breakeven then 0
        else if (10 : ℚ) < 12 then 1 else 0)) :=
  ⟨rfl, rfl, by norm_num, rfl,
   exitTrade_score_sign_law sC2w 10 12 ExitTag.profit rfl rfl (by norm_num)
     rfl⟩

/-- Session in a trade whose recorded entry price is exactly 0, with the
latest close at 1, for the C2 counterexample. -/
def cC2x : Candle :=
  { «open» := 1, high := 1, low := 0, close := 1, timestamp := 0,
    volume := 100 }

def sC2x : SessionState :=
  { candlesDisplay := [cC2x],
    maxVolume := 100, breakoutDetected := false, breakoutTime := none,
    tradeEntered := true, tradeEntryTime := some 1,
    tradeEntryPrice := some 0, reactionTimes := [], totalBreakouts := 0,
    totalTrades := 0, successfulTrades := 0, scoreWins := 0,
    averageReactionTime := 0, cumulativeScore := 0, debugMode := true,
    paused := false }

/-- C2 counterexample: in a trade with entry price P = 0 and latest close
P2 = 1 > P, the claim demands a score delta of +1, but the source's guard
treats the zero entry price as unset and `exit_trade` changes nothing at
all. -/
theorem exitTrade_zero_entry_counterexample :
    sC2x.tradeEntered = true ∧ sC2x.tradeEntryPrice = some 0 ∧
    lastClose sC2x = some 1 ∧ (0 : ℚ) < 1 ∧
    exitTrade sC2x ExitTag.profit = sC2x ∧
    (exitTrade sC2x ExitTag.profit).cumulativeScore ≠
      sC2x.cumulativeScore + 1 :=
  ⟨rfl, rfl, rfl, by norm_num, rfl, by decide⟩

/-- Claim C3 (amended): the "profitable trades" counter is incremented by an
exit exactly when the exit guard passes (in a trade, truthy entry price,
nonempty candle history) and the caller supplied the profit tag — price
movement plays no part; all other exits leave it unchanged. -/
theorem successfulTrades_counts_profit_tag (s : SessionState) (r : ExitTag) :
    (exitTrade s r).successfulTrades = s.successfulTrades +
      (if exitGuard s = true ∧ r = ExitTag.profit then 1 else 0) := by
  cases hg : exitGuard s
  · unfold exitTrade
    rw [hg]
    simp [hg]
  · unfold exitTrade
    rw [hg]
    dsimp only
    cases r <;> simp [hg] <;> split_ifs <;> rfl

/-- Session in a trade at entry price 10 with the latest close at 5 (price
moved against the trade), for the C3 counterexample. -/
def cC3x : Candle :=
  { «open» := 6, high := 6, low := 5, close := 5, timestamp := 0,
    volume := 100 }

def sC3x : SessionState :=
  { candlesDisplay := [cC3x],
    maxVolume := 100, breakoutDetected := false, breakoutTime := none,
    tradeEntered := true, tradeEntryTime := some 1,
    tradeEntryPrice := some 10, reactionTimes := [], totalBreakouts := 0,
    totalTrades := 0, successfulTrades := 0, scoreWins := 0,
    averageReactionTime := 0, cumulativeScore := 0, debugMode := true,
    paused := false }

/-- C3 counterexample: the latest close (5) is strictly below the entry
price (10), so the claimed conjunction fails its favorable-movement
conjunct, yet an exit tagged profit still increments the "profitable"
counter. -/
theorem successfulTrades_bump_without_favorable_move :
    sC3x.tradeEntered = true ∧ sC3x.tradeEntryPrice = some 10 ∧
    lastClose sC3x = some 5 ∧ (5 : ℚ) < 10 ∧
    (exitTrade sC3x ExitTag.profit).successfulTrades =
      sC3x.successfulTrades + 1 :=
  ⟨rfl, rfl, rfl, by norm_num, by decide⟩

theorem enterTrade_reaction_debug (s : SessionState) (k : TradeKind)
    (now : ℚ) (h : s.tradeEntered = false) (hd : s.debugMode = true) :
    (enterTrade s k now).1.reactionTimes = s.reactionTimes := by
  unfold enterTrade
  rw [if_pos h]
  dsimp only
  rcases hcd : s.candlesDisplay.getLast? with - | c <;>
    simp [hcd, optTruthy, hd]

theorem enterTrade_reaction_none (s : SessionState) (k : TradeKind)
    (now : ℚ) (h : s.tradeEntered = false) (hb : s.breakoutTime = none) :
    (enterTrade s k now).1.reactionTimes = s.reactionTimes := by
  unfold enterTrade
  rw [if_pos h]
  dsimp only
  rcases hcd : s.candlesDisplay.getLast? with - | c <;>
    simp [hcd, optTruthy, hb]

theorem enterTrade_reaction_some (s : SessionState) (k : TradeKind)
    (now t : ℚ) (h : s.tradeEntered = false) (hd : s.debugMode = false)
    (hb : s.breakoutTime = some t) (ht : t ≠ 0) :
    (enterTrade s k now).1.reactionTimes =
      s.reactionTimes ++ [(now - t) * 1000] ∧
    (enterTrade s k now).1.averageReactionTime =
      (s.reactionTimes ++ [(now - t) * 1000]).sum /
        ((s.reactionTimes.length : ℚ) + 1) := by
  unfold enterTrade
  rw [if_pos h]
  dsimp only
  rcases hcd : s.candlesDisplay.getLast? with - | c <;>
    simp [hcd, optTruthy, hd, hb, ht]

/-- Claim C9: a successful enter records a reaction time (and recomputes the
running mean) exactly when debug mode is off and a breakout detection time
is stored; the recorded value is (enter time minus detection time) in
milliseconds.  Detection times are `time.time()` clock readings, hence
positive, which the hypothesis `hpos` captures. -/
theorem reactionTime_recorded_iff_normal (s : SessionState) (k : TradeKind)
    (now : ℚ) (h : s.tradeEntered = false)
    (hpos : ∀ t, s.breakoutTime = some t → 0 < t) :
    ((enterTrade s k now).1.reactionTimes ≠ s.reactionTimes ↔
      s.debugMode = false ∧ s.breakoutTime.isSome = true) ∧
    (∀ t, s.breakoutTime = some t → s.debugMode = false →
      (enterTrade s k now).1.reactionTimes =
        s.reactionTimes ++ [(now - t) * 1000] ∧
      (enterTrade s k now).1.averageReactionTime =
        (s.reactionTimes ++ [(now - t) * 1000]).sum /
          ((s.reactionTimes.length : ℚ) + 1)) := by
  refine ⟨⟨?_, ?_⟩, ?_⟩
  · intro hne
    cases hd : s.debugMode
    · rcases hb : s.breakoutTime with - | t
      · exact absurd (enterTrade_reaction_none s k now h hb) hne
      · exact ⟨rfl, rfl⟩
    · exact absurd (enterTrade_reaction_debug s k now h hd) hne
  · rintro ⟨hd, hsome⟩
    obtain ⟨t, hb⟩ := Option.isSome_iff_exists.mp hsome
    have ht : t ≠ 0 := (hpos t hb).ne'
    rw [(enterTrade_reaction_some s k now t h hd hb ht).1]
    simp
  · intro t hb hd
    exact enterTrade_reaction_some s k now t h hd hb (hpos t hb).ne'

/-- Normal-mode idle session with a breakout detected at time 5, for the C9
witness. -/
def sC9 : SessionState :=
  { candlesDisplay := [], maxVolume := 0, breakoutDetected := true,
    breakoutTime := some 5, tradeEntered := false, tradeEntryTime := none,
    tradeEntryPrice := none, reactionTimes := [], totalBreakouts := 1,
    totalTrades := 0, successfulTrades := 0, scoreWins := 0,
    averageReactionTime := 0, cumulativeScore := 0, debugMode := false,
    paused := false }

theorem reactionTime_recorded_iff_normal_witness :
    sC9.tradeEntered = false ∧ (∀ t, sC9.breakoutTime = some t → 0 < t) ∧
    (((enterTrade sC9 TradeKind.long 9).1.reactionTimes ≠
        sC9.reactionTimes ↔
      sC9.debugMode = false ∧ sC9.breakoutTime.isSome = true) ∧
     (∀ t, sC9.breakoutTime = some t → sC9.debugMode = false →
       (enterTrade sC9 TradeKind.long 9).1.reactionTimes =
         sC9.reactionTimes ++ [(9 - t) * 1000] ∧
       (enterTrade sC9 TradeKind.long 9).1.averageReactionTime =
         (sC9.reactionTimes ++ [(9 - t) * 1000]).sum /
           ((sC9.reactionTimes.length : ℚ) + 1))) :=
  ⟨rfl,
   by
     intro t ht
     have h5 : some (5 : ℚ) = some t := ht
     rw [Option.some.injEq] at h5
     rw [← h5]
     norm_num,
   reactionTime_recorded_iff_normal sC9 TradeKind.long 9 rfl
     (by
       intro t ht
       have h5 : some (5 : ℚ) = some t := ht
       rw [Option.some.injEq] at h5
       rw [← h5]
       norm_num)⟩

/-- Claim C10: `cancel` resets the pending-breakout flag but not the stored
detection time, so after a breakout detected at time T is cancelled, a later
successful enter in normal mode still records a reaction time measured from
T instead of recording nothing. -/
theorem cancelled_breakout_reaction (s : SessionState) (k : TradeKind)
    (T now : ℚ) (hb : s.breakoutTime = some T) (hT : 0 < T)
    (hd : s.debugMode = false) :
    (cancelTrade s).breakoutDetected = false ∧
    (cancelTrade s).breakoutTime = some T ∧
    (enterTrade (cancelTrade s) k now).2 = true ∧
    (enterTrade (cancelTrade s) k now).1.reactionTimes =
      s.reactionTimes ++ [(now - T) * 1000] := by
  have hct : (cancelTrade s).tradeEntered = false := rfl
  have hcb : (cancelTrade s).breakoutTime = some T := hb
  have hcd : (cancelTrade s).debugMode = false := hd
  have hsnd := (enterTrade_accepted_fields (cancelTrade s) k now hct).2.1
  have hrt :=
    (enterTrade_reaction_some (cancelTrade s) k now T hct hcd hcb hT.ne').1
  exact ⟨rfl, hcb, hsnd, hrt⟩

/-- Normal-mode in-trade session with a breakout detected at time 5, for
the C10 witness: cancelling and re-entering at time 9 records reaction
time (9 - 5) * 1000. -/
def sC10 : SessionState :=
  { candlesDisplay := [], maxVolume := 0, breakoutDetected := true,
    breakoutTime := some 5, tradeEntered := true, tradeEntryTime := some 1,
    tradeEntryPrice := some 10, reactionTimes := [], totalBreakouts := 1,
    totalTrades := 0, successfulTrades := 0, scoreWins := 0,
    averageReactionTime := 0, cumulativeScore := 0, debugMode := false,
    paused := false }

theorem cancelled_breakout_reaction_witness :
    sC10.breakoutTime = some 5 ∧ (0 : ℚ) < 5 ∧ sC10.debugMode = false ∧
    ((cancelTrade sC10).breakoutDetected = false ∧
     (cancelTrade sC10).breakoutTime = some 5 ∧
     (enterTrade (cancelTrade sC10) TradeKind.long 9).2 = true ∧
     (enterTrade (cancelTrade sC10) TradeKind.long 9).1.reactionTimes =
       sC10.reactionTimes ++ [(9 - 5) * 1000]) :=
  ⟨rfl, by norm_num, rfl,
   cancelled_breakout_reaction sC10 TradeKind.long 5 9 rfl (by norm_num)
     rfl⟩


end ScalpTrainer
